import Mathlib

/-!
Verification of the availability reconciliation and borrow-ledger engine
of the Test-Fixture-Manager repository (src/app.py), via a shallow
embedding of its data model and operations into Lean.

Modelling conventions:
* pandas cells that may be NaN are `Option` values (`none` = NaN/NaT);
* the numeric coercion `pd.to_numeric(_, errors='coerce')` of a raw cell
  is modelled as an `Option Int` input (`none` = unparseable/missing);
* Python `str.upper()` on the ASCII data handled here is `Char.toUpper`
  mapped over the characters;
* the Excel-backed dataframes become lists of records, and the stateful
  load/save of the ledger file becomes explicit state passing: each API
  operation takes the loaded ledger and returns the ledger it saves.
-/

namespace FixtureManager

/-- ASCII uppercase of a string (embedding of Python `str.upper()` for the
ASCII labels this program manipulates). -/
def upStr (s : String) : String := ⟨s.data.map Char.toUpper⟩

/-- Does the character list `s` start with `pat`? Helper for substring
containment. -/
def startsWithL : List Char → List Char → Bool
  | [], _ => true
  | _ :: _, [] => false
  | p :: ps, c :: cs => p == c && startsWithL ps cs

/-- Is `pat` a contiguous substring of `s`? Embedding of Python `pat in s`
on strings, over the underlying character lists. -/
def hasSubL (pat : List Char) : List Char → Bool
  | [] => startsWithL pat []
  | c :: cs => startsWithL pat (c :: cs) || hasSubL pat cs

/-- Is `pat` a contiguous substring of `s`? Embedding of Python `pat in s`. -/
def hasSub (pat s : String) : Bool := hasSubL pat.data s.data

/-- Embedding of `system_label` (src/app.py lines 42-49).  A missing cell
(`row.get` returning `None`) arrives as `none`; Python `x or ''` maps both
`None` and `''` to `''`, which `Option.getD ""` reproduces (an explicit
`some ""` takes the same branch as `none`). The function is total and
deterministic by construction. -/
def system_label (fixtureType description : Option String) : String :=
  let ft := upStr (fixtureType.getD "")
  let desc := upStr (description.getD "")
  if hasSub "VSFT" ft then "VSFT"
  else if hasSub "VSICT" ft then "VSICT"
  else if hasSub "SAFT" ft then "SAFT"
  else if hasSub "SPEA" desc then "SPEA3030"
  else if ft = "" then "OTHER" else ft

/-- A normalized inventory row as produced by `load_fixtures`
(src/app.py lines 16-40): `Article` and `Fixture Type` are stripped
strings, `Location` may be NaN (`none`), and `Available Units (Qty.)` has
been coerced to an integer. -/
structure FixtureRow where
  article : String
  partNumber : String
  name : String
  fixtureType : String
  description : String
  location : Option String
  totalUnits : Int
deriving DecidableEq, Repr

/-- The classified system label of an inventory row, as used by
`df.apply(system_label, axis=1)`: both text cells are present strings
after `load_fixtures` normalization. -/
def rowLabel (r : FixtureRow) : String :=
  system_label (some r.fixtureType) (some r.description)

/-- A borrow-ledger row in the canonical schema guaranteed by
`ensure_borrow_schema` (src/app.py lines 51-73).  `quantity` is the
numeric parse of the stored cell (`none` = unparseable/blank, read as 0 by
the availability computation); `returnedAt = none` means the loan is
open. -/
structure LoanRecord where
  borrowId : String
  article : String
  partNumber : String
  system : String
  quantity : Option Int
  clientName : String
  clientPhone : String
  location : String
  borrowedAt : String
  returnedAt : Option String
deriving DecidableEq, Repr

/-- Embedding of `availability` (src/app.py lines 89-105).  `df` is the
loaded fixtures dataframe, `bor` the loaded borrow ledger (the Python
function reloads it internally; here it is passed as state). Mirrors the
source exactly, including the early return of the unclamped `base_qty`
when the ledger is empty. -/
def availability (df : List FixtureRow) (bor : List LoanRecord)
    (article system : String) : Int :=
  let sysNorm := upStr system
  let base := df.filter (fun r => r.article == article && upStr (rowLabel r) == sysNorm)
  let baseQty := (base.map FixtureRow.totalUnits).sum
  if bor.isEmpty then baseQty
  else
    let openRows := bor.filter (fun b =>
      b.article == article && upStr b.system == sysNorm && b.returnedAt.isNone)
    let used := (openRows.map (fun b => b.quantity.getD 0)).sum
    max (baseQty - used) 0

/-- Modelled from the spec: the System Classifier policy of spec §4.1,
written with its own case-insensitive substring test, for comparison with
the source's `system_label`. -/
def classifySpec (fixtureType description : String) : String :=
  if hasSub (upStr "VSFT") (upStr fixtureType) then "VSFT"
  else if hasSub (upStr "VSICT") (upStr fixtureType) then "VSICT"
  else if hasSub (upStr "SAFT") (upStr fixtureType) then "SAFT"
  else if hasSub (upStr "SPEA") (upStr description) then "SPEA3030"
  else if fixtureType = "" then "OTHER" else upStr fixtureType

theorem upStr_empty_iff (s : String) : upStr s = "" ↔ s = "" := by
  cases s with
  | mk d =>
    constructor
    · intro h
      have hmap : d.map Char.toUpper = [] := congrArg String.data h
      have hd : d = [] := List.map_eq_nil_iff.mp hmap
      simp [hd]
    · intro h
      have hd : d = [] := congrArg String.data h
      simp [upStr, hd]

/-- C7: the classifier is a total deterministic function of
(fixtureType, description) agreeing with the spec's policy (missing inputs
treated as the empty string), and in particular fixtureType "VSFT-12"
yields VSFT, empty fixtureType with description "SPEA unit" yields
SPEA3030, and both empty yields OTHER. -/
theorem classifier_matches_spec :
    (∀ ft desc : Option String,
      system_label ft desc = classifySpec (ft.getD "") (desc.getD "")) ∧
    system_label (some "VSFT-12") (some "") = "VSFT" ∧
    system_label (some "") (some "SPEA unit") = "SPEA3030" ∧
    system_label (some "") (some "") = "OTHER" := by
  refine ⟨?_, by decide, by decide, by decide⟩
  intro ft desc
  have h1 : upStr "VSFT" = "VSFT" := by decide
  have h2 : upStr "VSICT" = "VSICT" := by decide
  have h3 : upStr "SAFT" = "SAFT" := by decide
  have h4 : upStr "SPEA" = "SPEA" := by decide
  simp only [system_label, classifySpec, h1, h2, h3, h4]
  by_cases h : ft.getD "" = ""
  · simp [h, upStr]
  · have h' : ¬ upStr (ft.getD "") = "" := fun hc => h ((upStr_empty_iff _).mp hc)
    simp [h, h']

/-- Modelled from the spec: the availability formula of spec §4.4, with
the clamp applied unconditionally (steps 1-5: base stock over matching
inventory rows, minus open matching loan quantities, clamped at 0). -/
def availabilitySpec (df : List FixtureRow) (bor : List LoanRecord)
    (article system : String) : Int :=
  let base := ((df.filter (fun r =>
      r.article == article && upStr (rowLabel r) == upStr system)).map
      FixtureRow.totalUnits).sum
  let used := ((bor.filter (fun b =>
      b.article == article && upStr b.system == upStr system &&
        b.returnedAt.isNone)).map (fun b => b.quantity.getD 0)).sum
  max (base - used) 0

theorem base_sum_nonneg (df : List FixtureRow) (p : FixtureRow → Bool)
    (h : ∀ r ∈ df, 0 ≤ r.totalUnits) :
    0 ≤ ((df.filter p).map FixtureRow.totalUnits).sum := by
  apply List.sum_nonneg
  intro x hx
  rcases List.mem_map.mp hx with ⟨r, hr, rfl⟩
  exact h r (List.mem_filter.mp hr).1

/-- C1: on any snapshot whose rows carry the documented non-negative
stock counts, `availability` computes exactly the spec formula: matching
base stock minus open matching loan quantities (unparseable read as 0),
clamped below at 0. -/
theorem availability_eq_spec (df : List FixtureRow) (bor : List LoanRecord)
    (article system : String) (h : ∀ r ∈ df, 0 ≤ r.totalUnits) :
    availability df bor article system = availabilitySpec df bor article system := by
  cases bor with
  | nil =>
    simp only [availability, availabilitySpec, List.isEmpty_nil, if_true,
      List.filter_nil, List.map_nil, List.sum_nil, sub_zero]
    exact (max_eq_left (base_sum_nonneg df _ h)).symm
  | cons b bs =>
    simp only [availability, availabilitySpec, List.isEmpty_cons]
    rfl

/-- Witness for C1 at a concrete snapshot, ledger and query. -/
theorem availability_eq_spec_witness :
    availability
      [⟨"A1", "PN1", "FixA", "VSFT rack", "d", some "L1", 5⟩]
      [⟨"b0", "A1", "PN1", "VSFT", some 2, "Ann", "123", "L1", "t0", none⟩]
      "A1" "VSFT"
    = availabilitySpec
      [⟨"A1", "PN1", "FixA", "VSFT rack", "d", some "L1", 5⟩]
      [⟨"b0", "A1", "PN1", "VSFT", some 2, "Ann", "123", "L1", "t0", none⟩]
      "A1" "VSFT" :=
  availability_eq_spec _ _ "A1" "VSFT" (by decide)

/-- C2: on any snapshot whose rows carry non-negative stock counts, the
reported availability is never negative, for every article, system and
ledger content (including the empty ledger and over-borrowed ledgers). -/
theorem availability_nonneg (df : List FixtureRow) (bor : List LoanRecord)
    (article system : String) (h : ∀ r ∈ df, 0 ≤ r.totalUnits) :
    0 ≤ availability df bor article system := by
  cases bor with
  | nil =>
    simp only [availability, List.isEmpty_nil, if_true]
    exact base_sum_nonneg df _ h
  | cons b bs =>
    simp only [availability, List.isEmpty_cons]
    exact le_max_right _ _

/-- Witness for C2 at a concrete snapshot with an over-borrowed ledger. -/
theorem availability_nonneg_witness :
    0 ≤ availability
      [⟨"A1", "PN1", "FixA", "VSFT rack", "d", some "L1", 5⟩]
      [⟨"b0", "A1", "PN1", "VSFT", some 99, "Ann", "123", "L1", "t0", none⟩]
      "A1" "VSFT" :=
  availability_nonneg _ _ "A1" "VSFT" (by decide)

/-- Error outcomes of the API operations (the HTTP 400/404 bodies of
src/app.py). -/
inductive ApiError where
  | validationError
  | notFound
  | insufficientAvailability
deriving DecidableEq, Repr

/-- The ledger row appended by a successful borrow (src/app.py lines
222-249): part number from the first inventory row matching the article,
and, when no location was supplied, the default location resolved from
the label of that same first row. -/
def borrowRecord (df : List FixtureRow) (article system loc : String)
    (qty : Int) (clientName clientPhone now bid : String) : LoanRecord :=
  let sub := df.filter (fun r => r.article == article)
  let part := (sub.head?.map FixtureRow.partNumber).getD ""
  let loc2 :=
    if loc ≠ "" then loc
    else
      let sysNorm := (sub.head?.map rowLabel).getD (upStr system)
      let subSys := sub.filter (fun r => upStr (rowLabel r) == sysNorm)
      (subSys.filterMap FixtureRow.location).headD ""
  { borrowId := bid, article := article, partNumber := part,
    system := upStr system, quantity := some qty,
    clientName := clientName, clientPhone := clientPhone,
    location := loc2, borrowedAt := now, returnedAt := none }

/-- Embedding of `api_borrow` (src/app.py lines 197-253).  The string
arguments are the JSON fields after the source's `str(...).strip()`
coercions and `qty` is the result of the `int(...)` coercion (0 on parse
failure).  `now` and `bid` stand for `datetime.now()` and `uuid.uuid4()`.
Returns the request outcome paired with the ledger state after the call:
unchanged on failure, the saved ledger on success. -/
def api_borrow (df : List FixtureRow) (bor : List LoanRecord)
    (article system loc : String) (qty : Int)
    (clientName clientPhone : String) (now bid : String) :
    Except ApiError LoanRecord × List LoanRecord :=
  if ¬(article ≠ "" ∧ system ≠ "" ∧ qty > 0 ∧ clientName ≠ "" ∧ clientPhone ≠ "") then
    (Except.error ApiError.validationError, bor)
  else if qty > availability df bor article system then
    (Except.error ApiError.insufficientAvailability, bor)
  else
    let newRec := borrowRecord df article system loc qty clientName clientPhone now bid
    (Except.ok newRec, bor ++ [newRec])

/-- Embedding of Python `str.strip()`: drop whitespace from both ends. -/
def pyStrip (s : String) : String :=
  ⟨((s.data.dropWhile Char.isWhitespace).reverse.dropWhile
      Char.isWhitespace).reverse⟩

/-- The cleaned id list of `api_return`: each id stripped, empties
dropped (src/app.py line 266). -/
def cleanIds (ids : List String) : List String :=
  (ids.map pyStrip).filter (fun s => s ≠ "")

/-- The row mask of `api_return` (src/app.py line 276): id among the
supplied ids and the loan still open. -/
def openMatch (ids : List String) (b : LoanRecord) : Bool :=
  ids.contains b.borrowId && b.returnedAt.isNone

/-- The per-row update of `api_return` (src/app.py line 281): stamp
`returnedAt` on masked rows, leave the rest alone. -/
def closeRow (ids : List String) (now : String) (b : LoanRecord) : LoanRecord :=
  if openMatch ids b then { b with returnedAt := some now } else b

/-- Embedding of `api_return` (src/app.py lines 255-283): `ids` is the
raw id list from the request body, `now` stands for `datetime.now()`.
Returns the outcome (count of rows marked returned, or an error) paired
with the ledger state after the call. -/
def api_return (bor : List LoanRecord) (ids : List String) (now : String) :
    Except ApiError Nat × List LoanRecord :=
  if (cleanIds ids).isEmpty then (Except.error ApiError.validationError, bor)
  else if bor.isEmpty then (Except.error ApiError.notFound, bor)
  else if (bor.filter (openMatch (cleanIds ids))).length = 0 then
    (Except.error ApiError.notFound, bor)
  else
    ((Except.ok (bor.filter (openMatch (cleanIds ids))).length),
     bor.map (closeRow (cleanIds ids) now))

/-- C3: a borrow request passing input validation but asking for more
than the current availability is rejected with InsufficientAvailability
and leaves the ledger exactly as it was (same row count, same rows). -/
theorem borrow_insufficient_rejected (df : List FixtureRow)
    (bor : List LoanRecord) (article system loc : String) (qty : Int)
    (clientName clientPhone now bid : String)
    (hart : article ≠ "") (hsys : system ≠ "") (hqty : 0 < qty)
    (hcn : clientName ≠ "") (hcp : clientPhone ≠ "")
    (hover : availability df bor article system < qty) :
    api_borrow df bor article system loc qty clientName clientPhone now bid =
      (Except.error ApiError.insufficientAvailability, bor) := by
  unfold api_borrow
  rw [if_neg (not_not_intro ⟨hart, hsys, hqty, hcn, hcp⟩), if_pos hover]

/-- Witness for C3: borrowing 99 units against a stock of 5. -/
theorem borrow_insufficient_rejected_witness :
    api_borrow
      [⟨"A1", "PN1", "FixA", "VSFT rack", "d", some "L1", 5⟩] []
      "A1" "VSFT" "" 99 "Ann" "123" "t1" "b1" =
      (Except.error ApiError.insufficientAvailability, []) :=
  borrow_insufficient_rejected _ _ _ _ _ _ _ _ _ _
    (by decide) (by decide) (by decide) (by decide) (by decide) (by decide)

theorem toNat_ofNatAux {n : Nat} (h : n.isValidChar) :
    (Char.ofNatAux n h).toNat = n := rfl

theorem toUpper_idem (c : Char) : c.toUpper.toUpper = c.toUpper := by
  simp only [Char.toUpper]
  by_cases h : c.toNat ≥ 97 ∧ c.toNat ≤ 122
  · rw [if_pos h]
    have hv : Nat.isValidChar (c.toNat - 32) := Or.inl (by omega)
    have ht : (Char.ofNat (c.toNat - 32)).toNat = c.toNat - 32 := by
      unfold Char.ofNat
      rw [dif_pos hv]
      exact toNat_ofNatAux hv
    rw [ht]
    rw [if_neg (by omega)]
  · rw [if_neg h, if_neg h]

theorem upStr_idem (s : String) : upStr (upStr s) = upStr s := by
  have hfun : Char.toUpper ∘ Char.toUpper = Char.toUpper := funext toUpper_idem
  simp [upStr, List.map_map, hfun]

/-- Step 2 of `availability`: total stock over inventory rows matching
the article exactly and the requested system case-insensitively. -/
def baseQty (df : List FixtureRow) (article system : String) : Int :=
  ((df.filter (fun r =>
      r.article == article && upStr (rowLabel r) == upStr system)).map
      FixtureRow.totalUnits).sum

/-- Step 4 of `availability`: quantities of open ledger rows matching the
article exactly and the system case-insensitively, unparseable read as 0. -/
def usedQty (bor : List LoanRecord) (article system : String) : Int :=
  ((bor.filter (fun b =>
      b.article == article && upStr b.system == upStr system &&
        b.returnedAt.isNone)).map (fun b => b.quantity.getD 0)).sum

theorem availability_def (df : List FixtureRow) (bor : List LoanRecord)
    (article system : String) :
    availability df bor article system =
      if bor.isEmpty then baseQty df article system
      else max (baseQty df article system - usedQty bor article system) 0 := rfl

theorem usedQty_append_match (bor : List LoanRecord) (article system : String)
    (r : LoanRecord) (hart : r.article = article)
    (hsys : upStr r.system = upStr system) (hopen : r.returnedAt = none) :
    usedQty (bor ++ [r]) article system =
      usedQty bor article system + r.quantity.getD 0 := by
  unfold usedQty
  rw [List.filter_append]
  have hr : (r.article == article && (upStr r.system == upStr system) &&
      r.returnedAt.isNone) = true := by
    simp [hart, hsys, hopen]
  simp only [List.filter_cons, List.filter_nil, hr, if_true]
  rw [List.map_append, List.sum_append]
  simp

theorem availability_append_open (df : List FixtureRow)
    (bor : List LoanRecord) (article system : String) (r : LoanRecord)
    (hart : r.article = article) (hsys : upStr r.system = upStr system)
    (hopen : r.returnedAt = none) :
    availability df (bor ++ [r]) article system =
      max (baseQty df article system -
        (usedQty bor article system + r.quantity.getD 0)) 0 := by
  rw [availability_def]
  have hne : (bor ++ [r]).isEmpty = false := by
    cases bor <;> rfl
  rw [hne]
  simp only [Bool.false_eq_true, if_false]
  rw [usedQty_append_match bor article system r hart hsys hopen]

theorem api_borrow_success (df : List FixtureRow) (bor : List LoanRecord)
    (article system loc : String) (qty : Int)
    (clientName clientPhone now bid : String)
    (hval : article ≠ "" ∧ system ≠ "" ∧ qty > 0 ∧ clientName ≠ "" ∧ clientPhone ≠ "")
    (hnotover : ¬ qty > availability df bor article system) :
    api_borrow df bor article system loc qty clientName clientPhone now bid =
      (Except.ok (borrowRecord df article system loc qty clientName clientPhone now bid),
       bor ++ [borrowRecord df article system loc qty clientName clientPhone now bid]) := by
  unfold api_borrow
  rw [if_neg (not_not_intro hval), if_neg hnotover]

theorem borrowRecord_article (df : List FixtureRow)
    (article system loc : String) (qty : Int) (cn cp now bid : String) :
    (borrowRecord df article system loc qty cn cp now bid).article = article := rfl

theorem borrowRecord_system (df : List FixtureRow)
    (article system loc : String) (qty : Int) (cn cp now bid : String) :
    (borrowRecord df article system loc qty cn cp now bid).system = upStr system := rfl

theorem borrowRecord_quantity (df : List FixtureRow)
    (article system loc : String) (qty : Int) (cn cp now bid : String) :
    (borrowRecord df article system loc qty cn cp now bid).quantity = some qty := rfl

theorem borrowRecord_returnedAt (df : List FixtureRow)
    (article system loc : String) (qty : Int) (cn cp now bid : String) :
    (borrowRecord df article system loc qty cn cp now bid).returnedAt = none := rfl

/-- C4: a borrow request passing validation and within availability
succeeds, and the availability recomputed against the saved ledger over
the same snapshot is exactly the pre-borrow availability minus `qty`. -/
theorem borrow_decrements_availability (df : List FixtureRow)
    (bor : List LoanRecord) (article system loc : String) (qty : Int)
    (clientName clientPhone now bid : String)
    (hart : article ≠ "") (hsys : system ≠ "") (hqty : 0 < qty)
    (hcn : clientName ≠ "") (hcp : clientPhone ≠ "")
    (havail : qty ≤ availability df bor article system) :
    (∃ rec, (api_borrow df bor article system loc qty clientName clientPhone now bid).1
        = Except.ok rec) ∧
    availability df
        (api_borrow df bor article system loc qty clientName clientPhone now bid).2
        article system
      = availability df bor article system - qty := by
  have hnotover : ¬ qty > availability df bor article system := not_lt.mpr havail
  rw [api_borrow_success df bor article system loc qty clientName clientPhone now bid
    ⟨hart, hsys, hqty, hcn, hcp⟩ hnotover]
  refine ⟨⟨_, rfl⟩, ?_⟩
  rw [availability_append_open df bor article system _
    (borrowRecord_article df article system loc qty clientName clientPhone now bid)
    (by rw [borrowRecord_system]; exact upStr_idem system)
    (borrowRecord_returnedAt df article system loc qty clientName clientPhone now bid)]
  rw [borrowRecord_quantity]
  rw [availability_def] at havail ⊢
  cases bor with
  | nil =>
    simp only [List.isEmpty_nil, if_true] at havail ⊢
    have hU : usedQty [] article system = 0 := rfl
    rw [hU, Option.getD_some, max_eq_left (by omega)]
    omega
  | cons x xs =>
    simp only [List.isEmpty_cons, Bool.false_eq_true, if_false] at havail ⊢
    rw [Option.getD_some]
    have hBU : qty ≤ baseQty df article system - usedQty (x :: xs) article system := by
      rcases le_total (baseQty df article system - usedQty (x :: xs) article system) 0 with h | h
      · rw [max_eq_right h] at havail
        omega
      · rw [max_eq_left h] at havail
        omega
    rw [max_eq_left (by omega), max_eq_left (by omega)]
    omega

/-- Witness for C4: borrowing 2 of 5 available units drops availability
from 5 to 3. -/
theorem borrow_decrements_availability_witness :
    (∃ rec, (api_borrow
        [⟨"A1", "PN1", "FixA", "VSFT rack", "d", some "L1", 5⟩] []
        "A1" "VSFT" "" 2 "Ann" "123" "t1" "b1").1 = Except.ok rec) ∧
    availability
        [⟨"A1", "PN1", "FixA", "VSFT rack", "d", some "L1", 5⟩]
        (api_borrow
          [⟨"A1", "PN1", "FixA", "VSFT rack", "d", some "L1", 5⟩] []
          "A1" "VSFT" "" 2 "Ann" "123" "t1" "b1").2
        "A1" "VSFT"
      = availability
          [⟨"A1", "PN1", "FixA", "VSFT rack", "d", some "L1", 5⟩] []
          "A1" "VSFT" - 2 :=
  borrow_decrements_availability _ _ _ _ _ _ _ _ _ _
    (by decide) (by decide) (by decide) (by decide) (by decide) (by decide)

theorem map_eq_self_of_fixed {α : Type} (f : α → α) (l : List α)
    (h : ∀ x ∈ l, f x = x) : l.map f = l := by
  induction l with
  | nil => rfl
  | cons a t ih =>
    simp only [List.map_cons]
    rw [h a (by simp), ih (fun x hx => h x (by simp [hx]))]

theorem usedQty_append_closed (bor : List LoanRecord)
    (article system : String) (r : LoanRecord)
    (hclosed : r.returnedAt.isNone = false) :
    usedQty (bor ++ [r]) article system = usedQty bor article system := by
  unfold usedQty
  rw [List.filter_append]
  have hr : (r.article == article && (upStr r.system == upStr system) &&
      r.returnedAt.isNone) = false := by
    simp [hclosed]
  simp [List.filter_cons, hr]

theorem cleanIds_single (bid : String) (htrim : pyStrip bid = bid)
    (hbid : bid ≠ "") : cleanIds [bid] = [bid] := by
  unfold cleanIds
  simp [htrim, hbid]

theorem api_return_fresh_append (bor : List LoanRecord) (r : LoanRecord)
    (bid now2 : String)
    (hid : r.borrowId = bid) (hopen : r.returnedAt = none)
    (hfresh : ∀ x ∈ bor, x.borrowId ≠ bid)
    (htrim : pyStrip bid = bid) (hbid : bid ≠ "") :
    api_return (bor ++ [r]) [bid] now2 =
      (Except.ok 1, bor ++ [{ r with returnedAt := some now2 }]) := by
  have hmatch : openMatch [bid] r = true := by
    simp [openMatch, hid, hopen]
  have hnomatch : ∀ x ∈ bor, openMatch [bid] x = false := by
    intro x hx
    simp [openMatch, hfresh x hx]
  have hfilter : (bor ++ [r]).filter (openMatch [bid]) = [r] := by
    rw [List.filter_append]
    rw [List.filter_eq_nil_iff.mpr (fun x hx => by simp [hnomatch x hx])]
    simp [List.filter_cons, hmatch]
  have hmap : (bor ++ [r]).map (closeRow [bid] now2) =
      bor ++ [{ r with returnedAt := some now2 }] := by
    rw [List.map_append]
    rw [map_eq_self_of_fixed _ bor (fun x hx => by
      unfold closeRow
      rw [hnomatch x hx]
      rfl)]
    simp only [List.map_cons, List.map_nil]
    unfold closeRow
    rw [hmatch]
    simp
  unfold api_return
  rw [cleanIds_single bid htrim hbid]
  have hne : ((bor ++ [r]).isEmpty) = false := by
    cases bor <;> rfl
  simp only [List.isEmpty_cons, Bool.false_eq_true, if_false, hne, hfilter,
    List.length_singleton, hmap]
  rfl

/-- C5: a successful borrow of quantity `qty` followed by a return of the
created (fresh) loan id succeeds with count 1 and brings the availability
for that (article, system) back to its pre-borrow value, over the same
snapshot. -/
theorem borrow_return_restores (df : List FixtureRow)
    (bor : List LoanRecord) (article system loc : String) (qty : Int)
    (clientName clientPhone now bid now2 : String)
    (hart : article ≠ "") (hsys : system ≠ "") (hqty : 0 < qty)
    (hcn : clientName ≠ "") (hcp : clientPhone ≠ "")
    (havail : qty ≤ availability df bor article system)
    (hfresh : ∀ r ∈ bor, r.borrowId ≠ bid)
    (htrim : pyStrip bid = bid) (hbid : bid ≠ "") :
    (api_return
        (api_borrow df bor article system loc qty clientName clientPhone now bid).2
        [bid] now2).1 = Except.ok 1 ∧
    availability df
        (api_return
          (api_borrow df bor article system loc qty clientName clientPhone now bid).2
          [bid] now2).2
        article system
      = availability df bor article system := by
  rw [api_borrow_success df bor article system loc qty clientName clientPhone now bid
    ⟨hart, hsys, hqty, hcn, hcp⟩ (not_lt.mpr havail)]
  rw [api_return_fresh_append bor
    (borrowRecord df article system loc qty clientName clientPhone now bid)
    bid now2 rfl rfl hfresh htrim hbid]
  refine ⟨rfl, ?_⟩
  rw [availability_def]
  have hne : ((bor ++
      [{ borrowRecord df article system loc qty clientName clientPhone now bid with
          returnedAt := some now2 }]).isEmpty) = false := by
    cases bor <;> rfl
  rw [hne]
  simp only [Bool.false_eq_true, if_false]
  rw [usedQty_append_closed bor article system
    { borrowRecord df article system loc qty clientName clientPhone now bid with
        returnedAt := some now2 } rfl]
  rw [availability_def] at havail ⊢
  cases bor with
  | nil =>
    simp only [List.isEmpty_nil, if_true] at havail ⊢
    have hU : usedQty [] article system = 0 := rfl
    rw [hU, sub_zero]
    exact max_eq_left (by omega)
  | cons x xs =>
    simp only [List.isEmpty_cons, Bool.false_eq_true, if_false]

/-- Witness for C5: borrow 2 of 5, return the loan, availability is 5
again. -/
theorem borrow_return_restores_witness :
    (api_return
        (api_borrow
          [⟨"A1", "PN1", "FixA", "VSFT rack", "d", some "L1", 5⟩] []
          "A1" "VSFT" "" 2 "Ann" "123" "t1" "b1").2
        ["b1"] "t2").1 = Except.ok 1 ∧
    availability
        [⟨"A1", "PN1", "FixA", "VSFT rack", "d", some "L1", 5⟩]
        (api_return
          (api_borrow
            [⟨"A1", "PN1", "FixA", "VSFT rack", "d", some "L1", 5⟩] []
            "A1" "VSFT" "" 2 "Ann" "123" "t1" "b1").2
          ["b1"] "t2").2
        "A1" "VSFT"
      = availability
          [⟨"A1", "PN1", "FixA", "VSFT rack", "d", some "L1", 5⟩] []
          "A1" "VSFT" :=
  borrow_return_restores _ _ _ _ _ _ _ _ _ _ _
    (by decide) (by decide) (by decide) (by decide) (by decide) (by decide)
    (by decide) (by decide) (by decide)

theorem isEmpty_false_of_ne_nil {α : Type} {l : List α} (h : l ≠ []) :
    l.isEmpty = false := by
  cases l with
  | nil => exact absurd rfl h
  | cons a t => rfl

/-- C6: on a non-empty cleaned id set and a non-empty ledger, the return
operation fails with NotFound and changes no row when no supplied id
matches an open row; otherwise it reports the number of open matched rows
and saves the ledger in which exactly the open rows with supplied ids get
`returnedAt = now` while every other row — including already-closed rows
whose id was supplied — is unchanged. -/
theorem return_updates_exactly_matches (bor : List LoanRecord)
    (ids : List String) (now : String)
    (hids : cleanIds ids ≠ []) (hbor : bor ≠ []) :
    (bor.filter (openMatch (cleanIds ids)) = [] →
      api_return bor ids now = (Except.error ApiError.notFound, bor)) ∧
    (bor.filter (openMatch (cleanIds ids)) ≠ [] →
      api_return bor ids now =
        (Except.ok (bor.countP (openMatch (cleanIds ids))),
         bor.map (fun r =>
           if openMatch (cleanIds ids) r then { r with returnedAt := some now }
           else r))) := by
  constructor
  · intro hno
    unfold api_return
    rw [isEmpty_false_of_ne_nil hids, isEmpty_false_of_ne_nil hbor]
    simp only [Bool.false_eq_true, if_false]
    rw [hno]
    simp
  · intro hsome
    unfold api_return
    rw [isEmpty_false_of_ne_nil hids, isEmpty_false_of_ne_nil hbor]
    simp only [Bool.false_eq_true, if_false]
    rw [if_neg (by
      intro hzero
      exact hsome (List.length_eq_zero.mp hzero))]
    rw [List.countP_eq_length_filter]
    rfl

/-- Witness for C6: returning the single open loan "b1" marks it closed
and reports count 1. -/
theorem return_updates_exactly_matches_witness :
    api_return [⟨"b1", "A1", "PN1", "VSFT", some 2, "Ann", "123", "L1", "t1", none⟩]
        ["b1"] "t2" =
      (Except.ok (([⟨"b1", "A1", "PN1", "VSFT", some 2, "Ann", "123", "L1", "t1",
          none⟩] : List LoanRecord).countP (openMatch (cleanIds ["b1"]))),
       ([⟨"b1", "A1", "PN1", "VSFT", some 2, "Ann", "123", "L1", "t1", none⟩] :
          List LoanRecord).map (fun r =>
         if openMatch (cleanIds ["b1"]) r then { r with returnedAt := some "t2" }
         else r)) :=
  (return_updates_exactly_matches
    [⟨"b1", "A1", "PN1", "VSFT", some 2, "Ann", "123", "L1", "t1", none⟩]
    ["b1"] "t2" (by decide) (by decide)).2 (by decide)

instance {ε α : Type} [DecidableEq ε] [DecidableEq α] :
    DecidableEq (Except ε α)
  | Except.error e, Except.error f =>
    if h : e = f then isTrue (by rw [h])
    else isFalse (fun hc => h (by injection hc))
  | Except.error _, Except.ok _ => isFalse (fun hc => Except.noConfusion hc)
  | Except.ok _, Except.error _ => isFalse (fun hc => Except.noConfusion hc)
  | Except.ok a, Except.ok b =>
    if h : a = b then isTrue (by rw [h])
    else isFalse (fun hc => h (by injection hc))

/-- A raw inventory row before normalization.  `qtyCell` is the numeric
parse of the `Available Units (Qty.)` cell in the sense of
`pd.to_numeric(_, errors='coerce')`: `none` when the cell is missing or
unparseable, `some z` when it parses to the integer `z`. -/
structure RawFixtureRow where
  article : String
  partNumber : String
  name : String
  fixtureType : String
  description : String
  location : Option String
  qtyCell : Option Int
deriving DecidableEq, Repr

/-- Embedding of the per-row normalization of `load_fixtures`
(src/app.py lines 29-39): strip the article and fixture-type strings and
turn the quantity cell into an integer via `fillna(0)`. -/
def load_fixtures_row (r : RawFixtureRow) : FixtureRow :=
  { article := pyStrip r.article, partNumber := r.partNumber,
    name := r.name, fixtureType := pyStrip r.fixtureType,
    description := r.description, location := r.location,
    totalUnits := r.qtyCell.getD 0 }

/-- Counterexample to C8: a parseable negative quantity cell passes the
loader unclamped, so the produced FixtureRecord has totalUnits -3 < 0. -/
theorem loader_negative_counterexample :
    ¬ 0 ≤ (load_fixtures_row
      ⟨"A1", "PN1", "FixA", "VSFT", "d", some "L1", some (-3)⟩).totalUnits := by
  decide

/-- C8 (amended): the loader normalizes unknown or unparseable quantity
cells to 0 and otherwise keeps the parsed integer unchanged — including
negative values, which are not clamped. -/
theorem loader_quantity_normalization (r : RawFixtureRow) :
    (r.qtyCell = none → (load_fixtures_row r).totalUnits = 0) ∧
    (∀ z : Int, r.qtyCell = some z → (load_fixtures_row r).totalUnits = z) := by
  constructor
  · intro h
    simp [load_fixtures_row, h]
  · intro z h
    simp [load_fixtures_row, h]

/-- Witness for the amended C8: an unparseable cell loads as 0. -/
theorem loader_quantity_normalization_witness :
    (load_fixtures_row
      ⟨"A1", "PN1", "FixA", "VSFT", "d", some "L1", none⟩).totalUnits = 0 :=
  (loader_quantity_normalization
    ⟨"A1", "PN1", "FixA", "VSFT", "d", some "L1", none⟩).1 rfl

/-- Modelled from the spec: the default-location rule of spec §4.5 — the
first non-empty location among inventory rows matching the requested
(article, system), or the empty string if none is found. -/
def specDefaultLocation (df : List FixtureRow) (article system : String) :
    String :=
  (((df.filter (fun r => r.article == article &&
      upStr (rowLabel r) == upStr system)).filterMap
      FixtureRow.location).filter (fun s => s ≠ "")).headD ""

/-- The default location the source actually computes (src/app.py lines
227-232): the system filter uses the classified label of the first row
matching the article — not the requested system — and takes the first
non-null location, which may be the empty string. -/
def defaultLocation (df : List FixtureRow) (article system : String) : String :=
  let sub := df.filter (fun r => r.article == article)
  let sysNorm := (sub.head?.map rowLabel).getD (upStr system)
  ((sub.filter (fun r => upStr (rowLabel r) == sysNorm)).filterMap
    FixtureRow.location).headD ""

/-- Counterexample to C9: article "A1" has a SAFT row (location "L1")
first and a VSFT row (location "L2") second; a successful borrow of
(A1, VSFT) with no location supplied stores "L1", while the first
non-empty location among rows matching (A1, VSFT) is "L2". -/
theorem borrow_default_location_counterexample :
    (api_borrow
        [⟨"A1", "PN1", "FixA", "SAFT box", "d", some "L1", 5⟩,
         ⟨"A1", "PN1", "FixA", "VSFT rack", "d", some "L2", 5⟩] []
        "A1" "VSFT" "" 1 "Ann" "123" "t1" "b1").1 =
      Except.ok (borrowRecord
        [⟨"A1", "PN1", "FixA", "SAFT box", "d", some "L1", 5⟩,
         ⟨"A1", "PN1", "FixA", "VSFT rack", "d", some "L2", 5⟩]
        "A1" "VSFT" "" 1 "Ann" "123" "t1" "b1") ∧
    (borrowRecord
        [⟨"A1", "PN1", "FixA", "SAFT box", "d", some "L1", 5⟩,
         ⟨"A1", "PN1", "FixA", "VSFT rack", "d", some "L2", 5⟩]
        "A1" "VSFT" "" 1 "Ann" "123" "t1" "b1").location = "L1" ∧
    specDefaultLocation
        [⟨"A1", "PN1", "FixA", "SAFT box", "d", some "L1", 5⟩,
         ⟨"A1", "PN1", "FixA", "VSFT rack", "d", some "L2", 5⟩]
        "A1" "VSFT" = "L2" := by
  decide

/-- C9 (amended): for every successful borrow in which no location is
supplied, the created LoanRecord's location is the first non-null
location among inventory rows whose article matches and whose classified
label equals the label of the first row matching the article (the
uppercased requested system when no row matches the article), or the
empty string if none. -/
theorem borrow_default_location (df : List FixtureRow)
    (bor : List LoanRecord) (article system : String) (qty : Int)
    (clientName clientPhone now bid : String)
    (hart : article ≠ "") (hsys : system ≠ "") (hqty : 0 < qty)
    (hcn : clientName ≠ "") (hcp : clientPhone ≠ "")
    (havail : qty ≤ availability df bor article system) :
    (api_borrow df bor article system "" qty clientName clientPhone now bid).1 =
      Except.ok (borrowRecord df article system "" qty clientName clientPhone now bid) ∧
    (borrowRecord df article system "" qty clientName clientPhone now bid).location =
      defaultLocation df article system := by
  constructor
  · rw [api_borrow_success df bor article system "" qty clientName clientPhone now bid
      ⟨hart, hsys, hqty, hcn, hcp⟩ (not_lt.mpr havail)]
  · rfl

/-- Witness for the amended C9 at the counterexample snapshot. -/
theorem borrow_default_location_witness :
    (api_borrow
        [⟨"A1", "PN1", "FixA", "SAFT box", "d", some "L1", 5⟩,
         ⟨"A1", "PN1", "FixA", "VSFT rack", "d", some "L2", 5⟩] []
        "A1" "VSFT" "" 1 "Ann" "123" "t1" "b2").1 =
      Except.ok (borrowRecord
        [⟨"A1", "PN1", "FixA", "SAFT box", "d", some "L1", 5⟩,
         ⟨"A1", "PN1", "FixA", "VSFT rack", "d", some "L2", 5⟩]
        "A1" "VSFT" "" 1 "Ann" "123" "t1" "b2") ∧
    (borrowRecord
        [⟨"A1", "PN1", "FixA", "SAFT box", "d", some "L1", 5⟩,
         ⟨"A1", "PN1", "FixA", "VSFT rack", "d", some "L2", 5⟩]
        "A1" "VSFT" "" 1 "Ann" "123" "t1" "b2").location =
      defaultLocation
        [⟨"A1", "PN1", "FixA", "SAFT box", "d", some "L1", 5⟩,
         ⟨"A1", "PN1", "FixA", "VSFT rack", "d", some "L2", 5⟩]
        "A1" "VSFT" :=
  borrow_default_location _ _ _ _ _ _ _ _ _
    (by decide) (by decide) (by decide) (by decide) (by decide) (by decide)

end FixtureManager
